import Mathlib

/-!
Shallow embedding of the MedContext client session gate (the AuthGuard
component) and of the dashboard shell layout (the DashboardLayout component)
navigation state, together with theorems settling the specification claims.
-/

namespace MedContext

/-- Client persisted storage (localStorage): a partial map from string keys to
string values; an absent key reads as none (null). -/
def Storage : Type := String → Option String

/-- The localStorage key the auth gate reads: "medcontext_auth". -/
def authKey : String := "medcontext_auth"

/-- Storage with no keys set. -/
def emptyStorage : Storage := fun _ => none

/-- Storage holding a single value v under the auth key and nothing else. -/
def authOnlyStorage (v : String) : Storage :=
  fun k => if k = authKey then some v else none

/-- Operations a client component may perform on localStorage. -/
inductive StorageOp
  | getItem (key : String)
  | setItem (key value : String)
  | removeItem (key : String)
deriving DecidableEq

/-- Effect of one storage operation on the store; getItem leaves it unchanged. -/
def applyOp (st : Storage) : StorageOp → Storage
  | .getItem _ => st
  | .setItem k v => fun q => if q = k then some v else st q
  | .removeItem k => fun q => if q = k then none else st q

/-- Effect of a sequence of storage operations, applied left to right. -/
def applyOps (st : Storage) (ops : List StorageOp) : Storage :=
  ops.foldl applyOp st

/-- The storage operations AuthGuard performs during a mount: its checkAuth
effect calls localStorage.getItem on the auth key once, and no other storage
access appears anywhere in the component. -/
def authGuardStorageOps : List StorageOp := [.getItem authKey]

/-- checkAuth from AuthGuard: the stored value under the auth key is compared
for strict string equality with "true" (authState === "true"); a missing key
yields none and therefore false. -/
def checkAuth (st : Storage) : Bool := st authKey == some "true"

/-- What the AuthGuard render function returns: the centered loading spinner,
null, or the wrapped children unchanged. -/
inductive Render (α : Type)
  | loading
  | null
  | children (c : α)
deriving DecidableEq

/-- The render branch of AuthGuard as a function of its requireAuth prop, its
isAuthenticated state (none while still loading) and the child content. -/
def authGuardRender {α : Type} (requireAuth : Bool) (isAuthenticated : Option Bool)
    (c : α) : Render α :=
  match isAuthenticated with
  | none => .loading
  | some auth =>
      if requireAuth && !auth then .null
      else if !requireAuth && auth then .null
      else .children c

/-- The redirect effect of AuthGuard: the target of the router.push call issued
for a given state, if any. While isAuthenticated is none the effect returns
early and no navigation happens. -/
def authGuardEffect (requireAuth : Bool) (isAuthenticated : Option Bool) :
    Option String :=
  match isAuthenticated with
  | none => none
  | some auth =>
      if requireAuth && !auth then some "/login"
      else if !requireAuth && auth then some "/dashboard/chat"
      else none

/-- The state sequence of one AuthGuard instance over a mount: isAuthenticated
starts as null, then is set exactly once by the checkAuth effect, which has a
mount-only (empty) dependency list and therefore never runs again. -/
def mountStates (st : Storage) : List (Option Bool) := [none, some (checkAuth st)]

/-- All router.push calls issued by one AuthGuard instance over a mount: the
redirect effect runs once per distinct value of its dependency state. -/
def mountNavigations (requireAuth : Bool) (st : Storage) : List String :=
  (mountStates st).filterMap (authGuardEffect requireAuth)

/-- The two navigation-state fields of DashboardLayout, each a useState hook. -/
structure NavState where
  sidebarOpen : Bool
  sidebarExpanded : Bool
deriving DecidableEq

/-- Initial navigation state: both hooks are initialised with useState(false). -/
def initNavState : NavState := ⟨false, false⟩

/-- UI events handled by the DashboardLayout state setters. -/
inductive NavEvent
  | mouseEnter
  | mouseLeave
  | menuButtonClick
  | navItemClick
  | sheetOpenChange (b : Bool)
deriving DecidableEq

/-- One step of DashboardLayout state under an event, straight from the
handlers: the desktop rail onMouseEnter calls setSidebarExpanded(true) and
onMouseLeave calls setSidebarExpanded(false); the mobile menu button onClick
calls setSidebarOpen(true); a mobile nav item onClick calls
setSidebarOpen(false); the Sheet onOpenChange passes its argument to
setSidebarOpen. -/
def navStep (s : NavState) : NavEvent → NavState
  | .mouseEnter => ⟨s.sidebarOpen, true⟩
  | .mouseLeave => ⟨s.sidebarOpen, false⟩
  | .menuButtonClick => ⟨true, s.sidebarExpanded⟩
  | .navItemClick => ⟨false, s.sidebarExpanded⟩
  | .sheetOpenChange b => ⟨b, s.sidebarExpanded⟩

/-- Run a sequence of UI events from a state, left to right. -/
def runEvents (s : NavState) (es : List NavEvent) : NavState := es.foldl navStep s

/-- Remounting DashboardLayout re-initialises both useState hooks; no previous
state is consulted and nothing is persisted. -/
def remountNavState (_ : NavState) : NavState := initNavState

/-- Events handled by the desktop rail pointer handlers. -/
def isPointerEvent : NavEvent → Bool
  | .mouseEnter => true
  | .mouseLeave => true
  | _ => false

/-- Events handled by the mobile menu-button and nav-item click handlers. -/
def isMobileClickEvent : NavEvent → Bool
  | .menuButtonClick => true
  | .navItemClick => true
  | _ => false

/-- A static navigation entry of DashboardLayout (icon omitted: presentational). -/
structure NavItem where
  name : String
  href : String
deriving DecidableEq

/-- The static navigation list of DashboardLayout. -/
def navigation : List NavItem :=
  [⟨"Chat", "/dashboard/chat"⟩,
   ⟨"AI Agents", "/dashboard/ai-agents"⟩,
   ⟨"Settings", "/dashboard/settings"⟩]

/-- The isActive test of DashboardLayout: pathname === item.href. -/
def isActive (pathname : String) (item : NavItem) : Bool := pathname == item.href

/-- The navigation entries rendered highlighted for a given pathname. -/
def activeEntries (pathname : String) : List NavItem :=
  navigation.filter (fun item => isActive pathname item)

/-- Helper: flattening any number of copies of the empty list gives the empty
list. -/
theorem flatten_replicate_nil (n : Nat) :
    (List.replicate n ([] : List String)).flatten = [] := by
  induction n with
  | zero => rfl
  | succ n ih => simp [List.replicate, ih]

end MedContext

namespace MedContext

/-- C1: with requireAuth true and the persisted flag not the literal "true",
the mount issues exactly the navigation to "/login" once the flag is read, the
resolved state renders null, and neither the loading state nor the resolved
state ever renders the protected children. -/
theorem authGuard_requireAuth_unauthenticated {α : Type} (st : Storage) (c : α)
    (h : st authKey ≠ some "true") :
    mountNavigations true st = ["/login"] ∧
    authGuardRender true (some (checkAuth st)) c = Render.null ∧
    authGuardRender true none c ≠ Render.children c ∧
    authGuardRender true (some (checkAuth st)) c ≠ Render.children c := by
  have hc : checkAuth st = false := by
    simp [checkAuth]
    exact h
  refine ⟨?_, ?_, ?_, ?_⟩
  · simp [mountNavigations, mountStates, authGuardEffect, hc]
  · simp [authGuardRender, hc]
  · simp [authGuardRender]
  · simp [authGuardRender, hc]

/-- Witness for C1 at the empty storage with Nat children. -/
theorem authGuard_requireAuth_unauthenticated_witness :
    emptyStorage authKey ≠ some "true" ∧
    (mountNavigations true emptyStorage = ["/login"] ∧
     authGuardRender true (some (checkAuth emptyStorage)) (0 : Nat) = Render.null ∧
     authGuardRender true none (0 : Nat) ≠ Render.children 0 ∧
     authGuardRender true (some (checkAuth emptyStorage)) (0 : Nat) ≠
       Render.children 0) :=
  ⟨by decide, authGuard_requireAuth_unauthenticated emptyStorage 0 (by decide)⟩

/-- C2: with requireAuth false and the persisted flag equal to "true", the
mount issues exactly the navigation to "/dashboard/chat" once the flag is
read, the resolved state renders null, and neither render state renders the
public children. -/
theorem authGuard_public_authenticated {α : Type} (st : Storage) (c : α)
    (h : st authKey = some "true") :
    mountNavigations false st = ["/dashboard/chat"] ∧
    authGuardRender false (some (checkAuth st)) c = Render.null ∧
    authGuardRender false none c ≠ Render.children c ∧
    authGuardRender false (some (checkAuth st)) c ≠ Render.children c := by
  have hc : checkAuth st = true := by
    simp [checkAuth]
    exact h
  refine ⟨?_, ?_, ?_, ?_⟩
  · simp [mountNavigations, mountStates, authGuardEffect, hc]
  · simp [authGuardRender, hc]
  · simp [authGuardRender]
  · simp [authGuardRender, hc]

/-- Witness for C2 at a storage holding "true" under the auth key. -/
theorem authGuard_public_authenticated_witness :
    authOnlyStorage "true" authKey = some "true" ∧
    (mountNavigations false (authOnlyStorage "true") = ["/dashboard/chat"] ∧
     authGuardRender false (some (checkAuth (authOnlyStorage "true"))) (0 : Nat) =
       Render.null ∧
     authGuardRender false none (0 : Nat) ≠ Render.children 0 ∧
     authGuardRender false (some (checkAuth (authOnlyStorage "true"))) (0 : Nat) ≠
       Render.children 0) :=
  ⟨by decide, authGuard_public_authenticated (authOnlyStorage "true") 0 (by decide)⟩

/-- C3: the authenticated predicate is exact string equality with "true": for
every storage the gate treats the user as authenticated iff the stored value
under the auth key is the literal string "true"; absence, "True" and "1" all
read as not authenticated, as total (error-free) Boolean results. -/
theorem checkAuth_iff_literal_true :
    (∀ st : Storage, checkAuth st = true ↔ st authKey = some "true") ∧
    checkAuth emptyStorage = false ∧
    checkAuth (authOnlyStorage "True") = false ∧
    checkAuth (authOnlyStorage "1") = false ∧
    checkAuth (authOnlyStorage "true") = true := by
  refine ⟨fun st => ?_, by decide, by decide, by decide, by decide⟩
  simp [checkAuth]

/-- C4: for every requireAuth value, while isAuthenticated is still null the
gate renders the loading spinner, which is neither the children nor null, and
the redirect effect issues no navigation in that state. -/
theorem authGuard_loading_state {α : Type} (requireAuth : Bool) (c : α) :
    authGuardRender requireAuth none c = Render.loading ∧
    authGuardRender requireAuth none c ≠ Render.children c ∧
    authGuardRender requireAuth none c ≠ Render.null ∧
    authGuardEffect requireAuth none = none := by
  refine ⟨rfl, ?_, ?_, rfl⟩
  · simp [authGuardRender]
  · simp [authGuardRender]

/-- C5: whenever the flag agrees with requireAuth, the resolved gate renders
the children unchanged, a mount issues no navigation, and any number of such
mounts in succession issues no navigation either. -/
theorem authGuard_agreement_renders_children {α : Type} (requireAuth : Bool)
    (st : Storage) (c : α) (n : Nat) (h : checkAuth st = requireAuth) :
    authGuardRender requireAuth (some (checkAuth st)) c = Render.children c ∧
    mountNavigations requireAuth st = [] ∧
    (List.replicate n (mountNavigations requireAuth st)).flatten = [] := by
  have hnav : mountNavigations requireAuth st = [] := by
    cases requireAuth <;>
      simp [mountNavigations, mountStates, authGuardEffect, h]
  refine ⟨?_, hnav, ?_⟩
  · cases requireAuth <;> simp [authGuardRender, h]
  · rw [hnav]
    exact flatten_replicate_nil n

/-- Witness for C5: an authenticated storage behind a protected page, three
mounts in succession. -/
theorem authGuard_agreement_renders_children_witness :
    checkAuth (authOnlyStorage "true") = true ∧
    (authGuardRender true (some (checkAuth (authOnlyStorage "true"))) (0 : Nat) =
       Render.children 0 ∧
     mountNavigations true (authOnlyStorage "true") = [] ∧
     (List.replicate 3 (mountNavigations true (authOnlyStorage "true"))).flatten = []) :=
  ⟨by decide,
   authGuard_agreement_renders_children true (authOnlyStorage "true") 0 3 (by decide)⟩

/-- C6: whenever the flag disagrees with requireAuth, the instance triggers
the client-side route change exactly once over its lifetime: the full list of
router.push calls of the mount is a single navigation to the matching target,
so no further route change follows it. -/
theorem authGuard_mismatch_navigates_once (requireAuth : Bool) (st : Storage)
    (h : checkAuth st ≠ requireAuth) :
    mountNavigations requireAuth st =
      [if requireAuth then "/login" else "/dashboard/chat"] ∧
    (mountNavigations requireAuth st).length = 1 := by
  have hc : checkAuth st = !requireAuth := by
    cases requireAuth <;> cases hcs : checkAuth st <;> simp_all
  cases requireAuth <;>
    simp_all [mountNavigations, mountStates, authGuardEffect]

/-- Witness for C6: protected page with the flag absent. -/
theorem authGuard_mismatch_navigates_once_witness :
    checkAuth emptyStorage ≠ true ∧
    (mountNavigations true emptyStorage =
       [if true then "/login" else "/dashboard/chat"] ∧
     (mountNavigations true emptyStorage).length = 1) :=
  ⟨by decide, authGuard_mismatch_navigates_once true emptyStorage (by decide)⟩

/-- C7: a navigation entry is highlighted iff the pathname equals its href
character for character; the sub-route "/dashboard/settings/profile"
highlights no entry, and "/dashboard/settings" highlights exactly the
Settings entry. -/
theorem nav_highlight_exact_match :
    (∀ (pathname : String) (item : NavItem),
       isActive pathname item = true ↔ pathname = item.href) ∧
    activeEntries "/dashboard/settings/profile" = [] ∧
    (activeEntries "/dashboard/settings").map NavItem.name = ["Settings"] := by
  refine ⟨fun pathname item => ?_, by decide, by decide⟩
  simp [isActive]

/-- C8: the sidebar starts collapsed on every fresh mount, pointer-enter
expands it, pointer-leave collapses it again, the enter-then-leave sequence
from the initial state restores the initial state exactly, and a remount
always yields the initial state regardless of previous state. -/
theorem sidebar_hover_expand_collapse :
    initNavState.sidebarExpanded = false ∧
    (∀ s : NavState, (navStep s NavEvent.mouseEnter).sidebarExpanded = true) ∧
    (∀ s : NavState, (navStep s NavEvent.mouseLeave).sidebarExpanded = false) ∧
    navStep (navStep initNavState NavEvent.mouseEnter) NavEvent.mouseLeave =
      initNavState ∧
    (∀ s : NavState, remountNavState s = initNavState) := by
  exact ⟨rfl, fun s => rfl, fun s => rfl, rfl, fun s => rfl⟩

/-- C9: AuthGuard only ever reads the auth key from persisted storage: its
operation trace is exactly one getItem of "medcontext_auth", applying that
trace leaves every storage unchanged, and in particular the stored flag value
after any gate evaluation equals its value before. -/
theorem authGuard_storage_frame :
    authGuardStorageOps = [StorageOp.getItem authKey] ∧
    (∀ st : Storage, applyOps st authGuardStorageOps = st) ∧
    (∀ st : Storage, applyOps st authGuardStorageOps authKey = st authKey) := by
  exact ⟨rfl, fun st => rfl, fun st => rfl⟩

/-- C10: the two navigation-state fields are independent: any sequence of
pointer events leaves sidebarOpen unchanged, and any sequence of mobile
menu-button or nav-item clicks leaves sidebarExpanded unchanged. -/
theorem dashboard_nav_state_independence :
    (∀ (s : NavState) (es : List NavEvent),
       (∀ e ∈ es, isPointerEvent e = true) →
       (runEvents s es).sidebarOpen = s.sidebarOpen) ∧
    (∀ (s : NavState) (es : List NavEvent),
       (∀ e ∈ es, isMobileClickEvent e = true) →
       (runEvents s es).sidebarExpanded = s.sidebarExpanded) := by
  constructor
  · intro s es
    induction es generalizing s with
    | nil => intro _; rfl
    | cons e es ih =>
        intro h
        have he : isPointerEvent e = true := h e (List.mem_cons_self e es)
        have hstep : (navStep s e).sidebarOpen = s.sidebarOpen := by
          cases e <;> first
            | rfl
            | simp [isPointerEvent] at he
        have htail : ∀ x ∈ es, isPointerEvent x = true :=
          fun x hx => h x (List.mem_cons_of_mem e hx)
        calc (runEvents s (e :: es)).sidebarOpen
            = (runEvents (navStep s e) es).sidebarOpen := by
              simp [runEvents]
          _ = (navStep s e).sidebarOpen := ih (navStep s e) htail
          _ = s.sidebarOpen := hstep
  · intro s es
    induction es generalizing s with
    | nil => intro _; rfl
    | cons e es ih =>
        intro h
        have he : isMobileClickEvent e = true := h e (List.mem_cons_self e es)
        have hstep : (navStep s e).sidebarExpanded = s.sidebarExpanded := by
          cases e <;> first
            | rfl
            | simp [isMobileClickEvent] at he
        have htail : ∀ x ∈ es, isMobileClickEvent x = true :=
          fun x hx => h x (List.mem_cons_of_mem e hx)
        calc (runEvents s (e :: es)).sidebarExpanded
            = (runEvents (navStep s e) es).sidebarExpanded := by
              simp [runEvents]
          _ = (navStep s e).sidebarExpanded := ih (navStep s e) htail
          _ = s.sidebarExpanded := hstep

/-- Witness for C10: a concrete pointer sequence preserves sidebarOpen and a
concrete click sequence preserves sidebarExpanded, both from an expanded-open
starting state. -/
theorem dashboard_nav_state_independence_witness :
    (∀ e ∈ [NavEvent.mouseEnter, NavEvent.mouseLeave, NavEvent.mouseEnter],
       isPointerEvent e = true) ∧
    (runEvents ⟨true, true⟩
       [NavEvent.mouseEnter, NavEvent.mouseLeave, NavEvent.mouseEnter]).sidebarOpen =
      (⟨true, true⟩ : NavState).sidebarOpen ∧
    (∀ e ∈ [NavEvent.menuButtonClick, NavEvent.navItemClick],
       isMobileClickEvent e = true) ∧
    (runEvents ⟨true, true⟩
       [NavEvent.menuButtonClick, NavEvent.navItemClick]).sidebarExpanded =
      (⟨true, true⟩ : NavState).sidebarExpanded :=
  ⟨by decide,
   dashboard_nav_state_independence.1 ⟨true, true⟩
     [NavEvent.mouseEnter, NavEvent.mouseLeave, NavEvent.mouseEnter] (by decide),
   by decide,
   dashboard_nav_state_independence.2 ⟨true, true⟩
     [NavEvent.menuButtonClick, NavEvent.navItemClick] (by decide)⟩

end MedContext
